import Mathlib

/-!
Verification of the depthai python-bindings entry point (src/py_bindings.cpp).

The file embeds the module-construction logic of PYBIND11_MODULE(depthai, m):
the seven metadata attributes, the work-list ("callstack") of registration
callbacks built with push_front in the textual order of the source, the
drain of that work-list, the resolution of the
DEPTHAI_INSTALL_SIGNAL_HANDLER flag by probing the sys and builtins
modules, and the guarded call into the native library initializer.

Registration callbacks themselves are external collaborators: a callback is
modelled by its observable behaviour, namely either raising an exception or
completing after pushing a list of further callbacks onto the front of the
work-list (in the order of its push_front calls).  The Callstack adapter
type and the drain loop live in pybind11_common.hpp / the individual
binding translation units, which are not among the sources; they are
modelled from the spec where so marked.
-/

namespace Depthai

/-- Result of draining a work-list: either every callback completed
(carrying the execution trace, front first), or some callback raised
(carrying the exception, the trace of callbacks that completed before the
raiser, and the still-pending remainder of the list), or the step budget
ran out (an artifact of the embedding; the C++ loop has no budget). -/
inductive DrainResult (α : Type) where
  | ok (trace : List α)
  | err (e : String) (trace : List α) (remaining : List α)
  | outOfFuel (trace : List α) (remaining : List α)

/-- The callbacks invoked so far, front first, in any drain outcome. -/
def DrainResult.trace {α : Type} : DrainResult α → List α
  | .ok t => t
  | .err _ t _ => t
  | .outOfFuel t _ => t

/-- Modelled from the spec: the drain loop of the Callstack work-list
adapter (its implementation lives in pybind11_common.hpp and the binding
translation units, not among the sources).  It repeatedly removes the
front callback and invokes it until the list is empty.  A callback with
behaviour .ok pushes completes after calling push_front once per element
of pushes, in that order, so the list continues as pushes.reverse ++ rest;
a callback with behaviour .error e raises, the exception propagates
immediately and the rest of the list is left untouched.  The Nat argument
is a step budget making the recursion structural. -/
def drain {α : Type} (beh : α → Except String (List α)) : Nat → List α → DrainResult α
  | _, [] => .ok []
  | 0, c :: rest => .outOfFuel [] (c :: rest)
  | fuel + 1, c :: rest =>
    match beh c with
    | .error e => .err e [] rest
    | .ok pushes =>
      match drain beh fuel (pushes.reverse ++ rest) with
      | .ok t => .ok (c :: t)
      | .err e t rem => .err e (c :: t) rem
      | .outOfFuel t rem => .outOfFuel (c :: t) rem

theorem drain_fuel_mono {α : Type} (beh : α → Except String (List α)) :
    ∀ (fuel k : Nat) (l t : List α), drain beh fuel l = .ok t →
      drain beh (fuel + k) l = .ok t := by
  intro fuel
  induction fuel with
  | zero =>
    intro k l t h
    cases l with
    | nil => simpa [drain] using h
    | cons c rest => simp [drain] at h
  | succ fuel ih =>
    intro k l t h
    cases l with
    | nil => simpa [drain] using h
    | cons c rest =>
      have hstep : fuel + 1 + k = (fuel + k) + 1 := by omega
      rw [hstep]
      cases hbc : beh c with
      | error e => simp [drain, hbc] at h
      | ok pushes =>
        cases hrec : drain beh fuel (pushes.reverse ++ rest) with
        | ok t2 =>
          have h2 := ih k (pushes.reverse ++ rest) t2 hrec
          simp [drain, hbc, hrec] at h
          simp [drain, hbc, h2, ← h]
        | err e t2 rem => simp [drain, hbc, hrec] at h
        | outOfFuel t2 rem => simp [drain, hbc, hrec] at h

theorem drain_append {α : Type} (beh : α → Except String (List α)) :
    ∀ (f1 : Nat) (l1 t1 : List α), drain beh f1 l1 = .ok t1 →
    ∀ (f2 : Nat) (l2 t2 : List α), drain beh f2 l2 = .ok t2 →
      drain beh (f1 + f2) (l1 ++ l2) = .ok (t1 ++ t2) := by
  intro f1
  induction f1 with
  | zero =>
    intro l1 t1 h1 f2 l2 t2 h2
    cases l1 with
    | nil =>
      simp [drain] at h1
      subst h1
      simpa using h2
    | cons c rest => simp [drain] at h1
  | succ f1 ih =>
    intro l1 t1 h1 f2 l2 t2 h2
    cases l1 with
    | nil =>
      simp [drain] at h1
      subst h1
      have := drain_fuel_mono beh f2 (f1 + 1) l2 t2 h2
      have hstep : f1 + 1 + f2 = f2 + (f1 + 1) := by omega
      rw [hstep]
      simpa using this
    | cons c rest =>
      cases hbc : beh c with
      | error e => simp [drain, hbc] at h1
      | ok pushes =>
        cases hrec : drain beh f1 (pushes.reverse ++ rest) with
        | ok t2a =>
          have h3 := ih (pushes.reverse ++ rest) t2a hrec f2 l2 t2 h2
          rw [List.append_assoc] at h3
          simp [drain, hbc, hrec] at h1
          have hstep : f1 + 1 + f2 = (f1 + f2) + 1 := by omega
          rw [hstep]
          simp [drain, hbc, h3, ← h1]
        | err e t2a rem => simp [drain, hbc, hrec] at h1
        | outOfFuel t2a rem => simp [drain, hbc, hrec] at h1

theorem mem_trace_of_drain_ok {α : Type} (beh : α → Except String (List α)) :
    ∀ (fuel : Nat) (l t : List α), drain beh fuel l = .ok t →
      ∀ x ∈ l, x ∈ t := by
  intro fuel
  induction fuel with
  | zero =>
    intro l t h x hx
    cases l with
    | nil => simp at hx
    | cons c rest => simp [drain] at h
  | succ fuel ih =>
    intro l t h x hx
    cases l with
    | nil => simp at hx
    | cons c rest =>
      cases hbc : beh c with
      | error e => simp [drain, hbc] at h
      | ok pushes =>
        cases hrec : drain beh fuel (pushes.reverse ++ rest) with
        | ok t2 =>
          simp [drain, hbc, hrec] at h
          rcases List.mem_cons.mp hx with hx | hx
          · simp [← h, hx]
          · have : x ∈ pushes.reverse ++ rest := List.mem_append.mpr (Or.inr hx)
            have := ih (pushes.reverse ++ rest) t2 hrec x this
            simp [← h, this]
        | err e t2 rem => simp [drain, hbc, hrec] at h
        | outOfFuel t2 rem => simp [drain, hbc, hrec] at h

/-- The functional areas whose registration callbacks the module entry
point enqueues, one constructor per bind function named in
PYBIND11_MODULE, plus the anonymous no-op lambda pushed last
(the sentinel closing the callstack). -/
inductive Area where
  | commonBindings
  | datatypeBindings
  | logBindings
  | versionBindings
  | dataQueueBindings
  | openVINOBindings
  | nodeBindings
  | assetManagerBindings
  | pipelineBindings
  | xLinkBindings
  | deviceBindings
  | deviceBootloaderBindings
  | calibrationHandlerBindings
  | rosBindings
  | sentinel
deriving DecidableEq

/-- Modelled from the spec: DatatypeBindings::addToCallstack is defined in
DatatypeBindings.cpp, which is not among the sources; per the spec the
driver enqueues one registration callback per functional area, so it is
modelled as pushing the datatype area callback onto the front. -/
def DatatypeBindings.addToCallstack (cs : List Area) : List Area :=
  Area.datatypeBindings :: cs

/-- Modelled from the spec: NodeBindings::addToCallstack is defined in
NodeBindings.cpp, which is not among the sources; modelled as pushing the
node area callback onto the front. -/
def NodeBindings.addToCallstack (cs : List Area) : List Area :=
  Area.nodeBindings :: cs

/-- The textual order of the work-list population in PYBIND11_MODULE
(lines 56-71 of py_bindings.cpp), one entry per push, first line first.
The anonymous lambda pushed after the end-of-the-callstack comment is the
sentinel and is the last entry. -/
def pushOrder : List Area :=
  [Area.datatypeBindings, Area.logBindings, Area.versionBindings,
   Area.dataQueueBindings, Area.openVINOBindings, Area.nodeBindings,
   Area.assetManagerBindings, Area.pipelineBindings, Area.xLinkBindings,
   Area.deviceBindings, Area.deviceBootloaderBindings,
   Area.calibrationHandlerBindings, Area.rosBindings, Area.sentinel]

/-- The initial work-list, built exactly as the source does: a fresh deque,
then each callback pushed to the front in textual order (push_front is
List.cons; the two addToCallstack helpers also push to the front). -/
def buildCallstack : List Area :=
  let cs : List Area := []
  let cs := DatatypeBindings.addToCallstack cs
  let cs := Area.logBindings :: cs
  let cs := Area.versionBindings :: cs
  let cs := Area.dataQueueBindings :: cs
  let cs := Area.openVINOBindings :: cs
  let cs := NodeBindings.addToCallstack cs
  let cs := Area.assetManagerBindings :: cs
  let cs := Area.pipelineBindings :: cs
  let cs := Area.xLinkBindings :: cs
  let cs := Area.deviceBindings :: cs
  let cs := Area.deviceBootloaderBindings :: cs
  let cs := Area.calibrationHandlerBindings :: cs
  let cs := Area.rosBindings :: cs
  let cs := Area.sentinel :: cs
  cs

theorem buildCallstack_eq_foldl :
    buildCallstack = pushOrder.foldl (fun acc a => a :: acc) [] := rfl

/-- The sentinel is the anonymous lambda [](py::module &, void *) {} of the
source: it performs no registration, pushes nothing and cannot raise.  The
behaviour of every other area's callback is external and stays a
parameter. -/
def fullBeh (beh : Area → Except String (List Area)) :
    Area → Except String (List Area) :=
  fun a => if a = Area.sentinel then .ok [] else beh a

/-- The attribute names the entry point sets on the module, in source
order (lines 47-53); each value is a build-time string constant. -/
def moduleAttrs : List String :=
  ["__version__", "__commit__", "__commit_datetime__", "__build_datetime__",
   "__device_version__", "__bootloader_version__", "__device_rvc3_version__"]

/-- The attribute name probed for the signal-handler option
(the signalHandlerKey constant of the source). -/
def signalHandlerKey : String := "DEPTHAI_INSTALL_SIGNAL_HANDLER"

/-- The probes the source performs, in textual order: first the sys module,
then the builtins module, each under signalHandlerKey. -/
def probeSequence : List (String × String) :=
  [("sys", signalHandlerKey), ("builtins", signalHandlerKey)]

/-- One probe step: if the attribute was read as a bool b, the accumulated
flag becomes acc && b; any failure (module missing, attribute missing,
cast to bool throwing) is swallowed by the enclosing try/catch and leaves
the accumulated flag unchanged, which the probe models as none. -/
def probeStep (acc : Bool) (probe : Option Bool) : Bool :=
  match probe with
  | some b => acc && b
  | none => acc

/-- The resolved install-signal-handler flag (lines 79-96): start from
true, then fold the probes of probeSequence over the environment, where
env m k is the bool value of attribute k of module m when that probe can
read one, and none when it fails in any way. -/
def resolveInstallSignalHandler (env : String → String → Option Bool) : Bool :=
  probeSequence.foldl (fun acc p => probeStep acc (env p.1 p.2)) true

/-- A failure raised by the native initializer call: either an exception
derived from std::exception, or one that is not (any other thrown
type). -/
inductive InitFailure where
  | stdException (e : String)
  | nonStdException (e : String)

/-- Models the try/catch around the native initializer call
(lines 99-103): the catch clause names const std::exception&, so an
exception derived from std::exception is caught and discarded, while a
failure of any other thrown type is not matched by the clause and
propagates (contrast the catch-all blocks at lines 86 and 94, which the
probe code uses instead). -/
def tryDiscard (outcome : Except InitFailure Unit) : Except String Unit :=
  match outcome with
  | .ok _ => .ok ()
  | .error (.stdException _) => .ok ()
  | .error (.nonStdException e) => .error e

/-- Overall outcome of one module construction. -/
inductive BuildResult where
  | ok
  | raised (e : String)
  | fuelOut
deriving DecidableEq

/-- Observable log of one module construction: its overall result, the
attribute names set on the module, the trace of registration callbacks
invoked (front first), the callbacks left pending when a callback raised,
how often the native initializer was invoked, and the signal-handler flag
it was passed (none when it was never invoked). -/
structure RunLog where
  result : BuildResult
  attrs : List String
  trace : List Area
  remaining : List Area
  initCount : Nat
  flagPassed : Option Bool

/-- The body of PYBIND11_MODULE(depthai, m), in source order: set the
seven metadata attributes, build the callstack, wrap it in the adapter and
make the initial call CommonBindings::bind(m, &callstackAdapter) — which,
per the spec data flow, runs the common bindings callback and drains the
work-list (modelled from the spec: the bodies of the bind functions are
not among the sources) — then resolve the signal-handler flag and perform
the guarded native initializer call.  beh gives each external callback's
behaviour, env the probe environment, initOutcome what the native
initializer does (complete, or raise a std::exception-derived or other
failure), fuel the drain step budget. -/
def constructModule (beh : Area → Except String (List Area))
    (env : String → String → Option Bool)
    (initOutcome : Except InitFailure Unit) (fuel : Nat) : RunLog :=
  let attrs := moduleAttrs
  let callstack := buildCallstack
  match drain (fullBeh beh) fuel (Area.commonBindings :: callstack) with
  | .outOfFuel tr rem =>
    { result := .fuelOut, attrs := attrs, trace := tr, remaining := rem,
      initCount := 0, flagPassed := none }
  | .err e tr rem =>
    { result := .raised e, attrs := attrs, trace := tr, remaining := rem,
      initCount := 0, flagPassed := none }
  | .ok tr =>
    let installSignalHandler := resolveInstallSignalHandler env
    match tryDiscard initOutcome with
    | .ok _ =>
      { result := .ok, attrs := attrs, trace := tr, remaining := [],
        initCount := 1, flagPassed := some installSignalHandler }
    | .error e =>
      { result := .raised e, attrs := attrs, trace := tr, remaining := [],
        initCount := 1, flagPassed := some installSignalHandler }

/-- Callback behaviour in which every external callback completes without
pushing further work. -/
def pureBeh : Area → Except String (List Area) := fun _ => .ok []

/-- The empty probe environment: no module defines the flag. -/
def env0 : String → String → Option Bool := fun _ _ => none

/-- The execution trace of a full module construction in which no
callback pushes further work or raises. -/
def driverTrace : List Area :=
  (constructModule pureBeh env0 (Except.ok ()) 32).trace

/-- Callback ids for the concrete work-list scenario of the spec:
X, Y, Z seeded in that push order, and Y1, Y2 pushed by Y. -/
def exX : Nat := 1

def exY : Nat := 2

def exZ : Nat := 3

def exY1 : Nat := 4

def exY2 : Nat := 5

/-- Behaviour for the scenario: Y pushes Y1 then Y2 (one push_front each,
in that call order); every other callback completes without pushing. -/
def exBeh : Nat → Except String (List Nat) :=
  fun n => if n = exY then Except.ok [exY1, exY2] else Except.ok []

/-- C1: when the callback c at the front of the work-list pushes the list
pushes (front-pushed one at a time, in that order) and completes, the
whole drain trace is c, then everything arising from the pushed batch,
then everything arising from the previously pending work: every newly
pushed callback executes strictly before every callback that was already
pending when c started running.  In particular, for the seeded list
X, Y, Z where Y pushes Y1 then Y2, the trace is X, Y, Y2, Y1, Z. -/
theorem new_pushes_run_before_pending
    (beh : Nat → Except String (List Nat)) (c : Nat)
    (pushes pending : List Nat) (f1 f2 : Nat) (tNew tOld : List Nat)
    (hc : beh c = .ok pushes)
    (hNew : drain beh f1 pushes.reverse = .ok tNew)
    (hOld : drain beh f2 pending = .ok tOld) :
    drain beh (f1 + f2 + 1) (c :: pending) = .ok (c :: (tNew ++ tOld)) ∧
    (∀ p ∈ pushes, p ∈ tNew) ∧ (∀ q ∈ pending, q ∈ tOld) ∧
    drain exBeh 6 [exX, exY, exZ] = .ok [exX, exY, exY2, exY1, exZ] := by
  have hApp := drain_append beh f1 pushes.reverse tNew hNew f2 pending tOld hOld
  refine ⟨?_, ?_, ?_, rfl⟩
  · have hstep : f1 + f2 + 1 = (f1 + f2) + 1 := rfl
    rw [hstep]
    simp [drain, hc, hApp]
  · intro p hp
    exact mem_trace_of_drain_ok beh f1 pushes.reverse tNew hNew p
      (List.mem_reverse.mpr hp)
  · intro q hq
    exact mem_trace_of_drain_ok beh f2 pending tOld hOld q hq

/-- Witness for C1 at the concrete scenario: c = Y at the front of [Y, Z],
pushing Y1 then Y2, drains to Y, Y2, Y1, Z. -/
theorem new_pushes_run_before_pending_witness :
    drain exBeh (2 + 1 + 1) [exY, exZ] = .ok (exY :: ([exY2, exY1] ++ [exZ])) ∧
    (∀ p ∈ [exY1, exY2], p ∈ [exY2, exY1]) ∧ (∀ q ∈ [exZ], q ∈ [exZ]) ∧
    drain exBeh 6 [exX, exY, exZ] = .ok [exX, exY, exY2, exY1, exZ] :=
  new_pushes_run_before_pending exBeh exY [exY1, exY2] [exZ] 2 1
    [exY2, exY1] [exZ] rfl rfl rfl

/-- C2 counterexample: under the mechanics the claim itself fixes (each
area's callback pushed to the front in the textual order of lines 56-71,
the drain popping from the front), the datatype bindings execute after the
device bindings, and the optional/extension ROS bindings execute before
the OpenVINO and log utility bindings — refuting the claimed net order of
common, then datatypes, then device/pipeline/node, then utilities, then
extensions last. -/
theorem driver_claimed_order_false :
    List.indexOf Area.deviceBindings driverTrace <
      List.indexOf Area.datatypeBindings driverTrace ∧
    List.indexOf Area.rosBindings driverTrace <
      List.indexOf Area.openVINOBindings driverTrace ∧
    List.indexOf Area.rosBindings driverTrace <
      List.indexOf Area.logBindings driverTrace ∧
    Area.deviceBindings ∈ driverTrace ∧ Area.datatypeBindings ∈ driverTrace ∧
    Area.rosBindings ∈ driverTrace ∧ Area.openVINOBindings ∈ driverTrace ∧
    Area.logBindings ∈ driverTrace := by
  decide

/-- C2 amended: because every enqueue is a push_front and the drain pops
from the front, the net execution order is the common bindings first (the
direct initial call), then the reverse of the textual push order: the
sentinel, the ROS extension bindings, calibration, bootloader, device,
XLink, pipeline, asset-manager, node bindings, then the utilities
OpenVINO, data-queue, version, log, and the datatype bindings last; the
construction succeeds. -/
theorem driver_net_order :
    driverTrace =
      [Area.commonBindings, Area.sentinel, Area.rosBindings,
       Area.calibrationHandlerBindings, Area.deviceBootloaderBindings,
       Area.deviceBindings, Area.xLinkBindings, Area.pipelineBindings,
       Area.assetManagerBindings, Area.nodeBindings, Area.openVINOBindings,
       Area.dataQueueBindings, Area.versionBindings, Area.logBindings,
       Area.datatypeBindings] ∧
    (constructModule pureBeh env0 (Except.ok ()) 32).result = BuildResult.ok :=
  ⟨rfl, rfl⟩

/-- Environment in which sys defines the flag true and builtins leaves it
undefined. -/
def envSysTrue : String → String → Option Bool :=
  fun ns _ => if ns = "sys" then some true else none

/-- Environment in which sys defines the flag false and builtins defines
it true. -/
def envSysFalseBuiltinsTrue : String → String → Option Bool :=
  fun ns _ =>
    if ns = "sys" then some false
    else if ns = "builtins" then some true else none

/-- Environment agreeing with envSysTrue on the two probed cells but
defining the flag false in an unrelated third module. -/
def envOther : String → String → Option Bool :=
  fun ns _ =>
    if ns = "sys" then some true
    else if ns = "other_module" then some false else none

/-- C3: the resolved install-signal-handler flag is the logical AND of the
default true with every flag value a probe finds, a failed probe leaving
the accumulated value unchanged; concretely, sys true with builtins
undefined gives true, sys false with builtins true gives false, and
neither defined gives true. -/
theorem installSignalHandler_resolution :
    (∀ env : String → String → Option Bool,
      resolveInstallSignalHandler env =
        ((true && (env "sys" signalHandlerKey).getD true) &&
          (env "builtins" signalHandlerKey).getD true)) ∧
    resolveInstallSignalHandler envSysTrue = true ∧
    resolveInstallSignalHandler envSysFalseBuiltinsTrue = false ∧
    resolveInstallSignalHandler env0 = true := by
  refine ⟨?_, rfl, rfl, rfl⟩
  intro env
  cases h1 : env "sys" signalHandlerKey <;>
    cases h2 : env "builtins" signalHandlerKey <;>
      simp [resolveInstallSignalHandler, probeSequence, probeStep, h1, h2]

/-- C4 counterexample: an initializer failure whose thrown type is not
derived from std::exception is not matched by the catch clause at
line 101 (which names const std::exception&, unlike the catch-all blocks
at lines 86 and 94), so it propagates out of module construction: with
such a failure the construction raises, while with a succeeding
initializer the same construction succeeds — the initialization call's
outcome does change the overall success/failure outcome. -/
theorem init_nonstd_failure_changes_outcome :
    (constructModule pureBeh env0
        (Except.error (InitFailure.nonStdException "abi failure")) 32).result =
      BuildResult.raised "abi failure" ∧
    (constructModule pureBeh env0 (Except.ok ()) 32).result =
      BuildResult.ok :=
  ⟨rfl, rfl⟩

/-- C4 amended: every initializer failure derived from std::exception —
the type the catch clause at line 101 names — is caught and discarded
inside module construction: the whole observable outcome is the same as
with a succeeding initializer, and when the drain succeeded the
construction still succeeds even though the initializer raised such a
failure.  A failure of any other thrown type propagates (see the
counterexample). -/
theorem init_std_failure_invisible :
    (∀ beh env fuel (e : String),
      constructModule beh env (.error (InitFailure.stdException e)) fuel =
        constructModule beh env (.ok ()) fuel) ∧
    (∀ beh env fuel (e : String) (tr : List Area),
      drain (fullBeh beh) fuel (Area.commonBindings :: buildCallstack) = .ok tr →
      (constructModule beh env (.error (InitFailure.stdException e)) fuel).result =
        BuildResult.ok) := by
  constructor
  · intro beh env fuel e
    cases hdr : drain (fullBeh beh) fuel (Area.commonBindings :: buildCallstack) <;>
      simp [constructModule, hdr, tryDiscard]
  · intro beh env fuel e tr hdr
    simp [constructModule, hdr, tryDiscard]

/-- Witness for C4: with the concrete driver and an initializer raising a
std::exception-derived failure, the construction log equals the one with
a succeeding initializer, and the construction result is success. -/
theorem init_std_failure_invisible_witness :
    constructModule pureBeh env0
        (Except.error (InitFailure.stdException "init failed")) 32 =
      constructModule pureBeh env0 (Except.ok ()) 32 ∧
    (constructModule pureBeh env0
        (Except.error (InitFailure.stdException "init failed")) 32).result =
      BuildResult.ok :=
  ⟨init_std_failure_invisible.1 pureBeh env0 32 "init failed",
   init_std_failure_invisible.2 pureBeh env0 32 "init failed" driverTrace rfl⟩

/-- Behaviour in which the device-bindings callback raises and every other
external callback completes without pushing. -/
def behRaise : Area → Except String (List Area) :=
  fun a =>
    if a = Area.deviceBindings then Except.error "device bind failed"
    else Except.ok []

/-- Behaviour on Nat callback ids in which exY raises. -/
def exBehRaise : Nat → Except String (List Nat) :=
  fun n => if n = exY then Except.error "boom" else Except.ok []

/-- C5: a callback that raises stops the drain at once — the raised
exception comes out unchanged, nothing after the raiser runs, and the
unexecuted callbacks are left in the list — and module construction then
reports exactly that exception with the pending remainder abandoned and
the already-set attributes left in place (no rollback) and the native
initializer never invoked. -/
theorem callback_raise_propagates :
    (∀ (beh : Nat → Except String (List Nat)) (c : Nat) (rest : List Nat)
        (fuel : Nat) (e : String), beh c = .error e →
      drain beh (fuel + 1) (c :: rest) = .err e [] rest) ∧
    (∀ beh env (io : Except InitFailure Unit) fuel (e : String)
        (tr rem : List Area),
      drain (fullBeh beh) fuel (Area.commonBindings :: buildCallstack) =
        .err e tr rem →
      constructModule beh env io fuel =
        { result := .raised e, attrs := moduleAttrs, trace := tr,
          remaining := rem, initCount := 0, flagPassed := none }) := by
  constructor
  · intro beh c rest fuel e hc
    simp [drain, hc]
  · intro beh env io fuel e tr rem hdr
    simp [constructModule, hdr]

/-- Witness for C5: a raising callback at the front of [Y, Z] stops the
drain with Z pending, and a raising device-bindings callback makes the
whole construction report that exception with calibration already done,
the later areas pending, attributes in place and the initializer not
invoked. -/
theorem callback_raise_propagates_witness :
    drain exBehRaise (3 + 1) [exY, exZ] = .err "boom" [] [exZ] ∧
    constructModule behRaise env0 (Except.ok ()) 20 =
      { result := .raised "device bind failed", attrs := moduleAttrs,
        trace := [Area.commonBindings, Area.sentinel, Area.rosBindings,
          Area.calibrationHandlerBindings, Area.deviceBootloaderBindings],
        remaining := [Area.xLinkBindings, Area.pipelineBindings,
          Area.assetManagerBindings, Area.nodeBindings,
          Area.openVINOBindings, Area.dataQueueBindings,
          Area.versionBindings, Area.logBindings, Area.datatypeBindings],
        initCount := 0, flagPassed := none } :=
  ⟨callback_raise_propagates.1 exBehRaise exY [exZ] 3 "boom" rfl,
   callback_raise_propagates.2 behRaise env0 (Except.ok ()) 20
     "device bind failed"
     [Area.commonBindings, Area.sentinel, Area.rosBindings,
      Area.calibrationHandlerBindings, Area.deviceBootloaderBindings]
     [Area.xLinkBindings, Area.pipelineBindings, Area.assetManagerBindings,
      Area.nodeBindings, Area.openVINOBindings, Area.dataQueueBindings,
      Area.versionBindings, Area.logBindings, Area.datatypeBindings] rfl⟩

/-- C6: the native initializer is invoked exactly once when the drain
returns without error, never when the drain raises, and never more than
once in any construction. -/
theorem init_gate_after_drain :
    (∀ beh env (io : Except InitFailure Unit) fuel (tr : List Area),
      drain (fullBeh beh) fuel (Area.commonBindings :: buildCallstack) = .ok tr →
      (constructModule beh env io fuel).initCount = 1) ∧
    (∀ beh env (io : Except InitFailure Unit) fuel (e : String) (tr rem : List Area),
      drain (fullBeh beh) fuel (Area.commonBindings :: buildCallstack) =
        .err e tr rem →
      (constructModule beh env io fuel).initCount = 0) ∧
    (∀ beh env (io : Except InitFailure Unit) fuel,
      (constructModule beh env io fuel).initCount ≤ 1) := by
  refine ⟨?_, ?_, ?_⟩
  · intro beh env io fuel tr hdr
    cases hio : tryDiscard io <;> simp [constructModule, hdr, hio]
  · intro beh env io fuel e tr rem hdr
    simp [constructModule, hdr]
  · intro beh env io fuel
    cases hdr : drain (fullBeh beh) fuel (Area.commonBindings :: buildCallstack) <;>
      cases hio : tryDiscard io <;> simp [constructModule, hdr, hio]

/-- Witness for C6: with the concrete driver the initializer runs once,
and with the raising device-bindings callback it never runs. -/
theorem init_gate_after_drain_witness :
    (constructModule pureBeh env0 (Except.ok ()) 32).initCount = 1 ∧
    (constructModule behRaise env0 (Except.ok ()) 20).initCount = 0 :=
  ⟨init_gate_after_drain.1 pureBeh env0 (Except.ok ()) 32 driverTrace rfl,
   init_gate_after_drain.2.1 behRaise env0 (Except.ok ()) 20
     "device bind failed"
     [Area.commonBindings, Area.sentinel, Area.rosBindings,
      Area.calibrationHandlerBindings, Area.deviceBootloaderBindings]
     [Area.xLinkBindings, Area.pipelineBindings, Area.assetManagerBindings,
      Area.nodeBindings, Area.openVINOBindings, Area.dataQueueBindings,
      Area.versionBindings, Area.logBindings, Area.datatypeBindings] rfl⟩

/-- The work-list below the sentinel, for reasoning about the front of
buildCallstack. -/
def pendingAfterSentinel : List Area :=
  [Area.rosBindings, Area.calibrationHandlerBindings,
   Area.deviceBootloaderBindings, Area.deviceBindings, Area.xLinkBindings,
   Area.pipelineBindings, Area.assetManagerBindings, Area.nodeBindings,
   Area.openVINOBindings, Area.dataQueueBindings, Area.versionBindings,
   Area.logBindings, Area.datatypeBindings]

theorem buildCallstack_cons :
    buildCallstack = Area.sentinel :: pendingAfterSentinel := rfl

/-- C7: the very last push of the initial work-list construction is the
no-op sentinel (the anonymous lambda that registers nothing, pushes
nothing and cannot raise), so the work-list handed to the drain is
non-empty and every drain with a positive step budget invokes at least
one callback. -/
theorem sentinel_closes_callstack :
    pushOrder.getLast? = some Area.sentinel ∧
    buildCallstack = pushOrder.foldl (fun acc a => a :: acc) [] ∧
    (∀ beh, fullBeh beh Area.sentinel = Except.ok []) ∧
    0 < buildCallstack.length ∧
    (∀ beh fuel,
      0 < (drain (fullBeh beh) (fuel + 1) buildCallstack).trace.length) := by
  refine ⟨rfl, rfl, fun beh => rfl, by decide, ?_⟩
  intro beh fuel
  rw [buildCallstack_cons]
  have hsen : fullBeh beh Area.sentinel = Except.ok [] := rfl
  simp only [drain, hsen]
  cases hrec : drain (fullBeh beh) fuel (([] : List Area).reverse ++ pendingAfterSentinel) <;>
    simp [hrec, DrainResult.trace]

/-- C8: the entry point sets exactly the seven fixed metadata attribute
names, in source order, each exactly once (no duplicates), and every
construction — whatever the callbacks, environment, initializer outcome
or budget — carries exactly this attribute list, never reassigned. -/
theorem module_metadata_attrs :
    moduleAttrs =
      ["__version__", "__commit__", "__commit_datetime__",
       "__build_datetime__", "__device_version__", "__bootloader_version__",
       "__device_rvc3_version__"] ∧
    moduleAttrs.length = 7 ∧ moduleAttrs.Nodup ∧
    (∀ beh env (io : Except InitFailure Unit) fuel,
      (constructModule beh env io fuel).attrs = moduleAttrs) := by
  refine ⟨rfl, rfl, by decide, ?_⟩
  intro beh env io fuel
  cases hdr : drain (fullBeh beh) fuel (Area.commonBindings :: buildCallstack) <;>
    cases hio : tryDiscard io <;> simp [constructModule, hdr, hio]

/-- C9: since every enqueue is a push_front and the sentinel is pushed
last, the sentinel is the front of the work-list when draining starts: it
is the first work-list entry invoked for every callback behaviour, and in
the concrete construction it executes strictly before every other
enqueued registration callback. -/
theorem sentinel_runs_first :
    buildCallstack.head? = some Area.sentinel ∧
    (∀ beh fuel,
      (drain (fullBeh beh) (fuel + 1) buildCallstack).trace.head? =
        some Area.sentinel) ∧
    (∀ a ∈ buildCallstack, a ≠ Area.sentinel →
      List.indexOf Area.sentinel driverTrace < List.indexOf a driverTrace) := by
  refine ⟨rfl, ?_, by decide⟩
  intro beh fuel
  rw [buildCallstack_cons]
  have hsen : fullBeh beh Area.sentinel = Except.ok [] := rfl
  simp only [drain, hsen]
  cases hrec : drain (fullBeh beh) fuel (([] : List Area).reverse ++ pendingAfterSentinel) <;>
    simp [hrec, DrainResult.trace]

/-- Witness for C9: the first drained entry is the sentinel, and the
sentinel executes before the datatype bindings in the concrete trace. -/
theorem sentinel_runs_first_witness :
    (drain (fullBeh pureBeh) (14 + 1) buildCallstack).trace.head? =
      some Area.sentinel ∧
    List.indexOf Area.sentinel driverTrace <
      List.indexOf Area.datatypeBindings driverTrace :=
  ⟨sentinel_runs_first.2.1 pureBeh 14,
   sentinel_runs_first.2.2 Area.datatypeBindings (by decide) (by decide)⟩

/-- C10: the flag is probed under the single fixed attribute name
DEPTHAI_INSTALL_SIGNAL_HANDLER, from exactly the modules sys and builtins
in that order, and two environments agreeing on those two cells resolve
to the same flag — no other module or attribute influences the result. -/
theorem flag_probe_fixed_sources :
    signalHandlerKey = "DEPTHAI_INSTALL_SIGNAL_HANDLER" ∧
    probeSequence = [("sys", signalHandlerKey), ("builtins", signalHandlerKey)] ∧
    (∀ env envB : String → String → Option Bool,
      env "sys" signalHandlerKey = envB "sys" signalHandlerKey →
      env "builtins" signalHandlerKey = envB "builtins" signalHandlerKey →
      resolveInstallSignalHandler env = resolveInstallSignalHandler envB) := by
  refine ⟨rfl, rfl, ?_⟩
  intro env envB h1 h2
  simp [resolveInstallSignalHandler, probeSequence, h1, h2]

/-- Witness for C10: an environment that additionally defines the flag
false in an unrelated module resolves identically to one that does not. -/
theorem flag_probe_fixed_sources_witness :
    resolveInstallSignalHandler envSysTrue = resolveInstallSignalHandler envOther :=
  flag_probe_fixed_sources.2.2 envSysTrue envOther rfl rfl

end Depthai
